import Mathlib

/-!
Verification development for the bulk CSV ingestion pipeline of the
property-graph service (`UploadInfoController` in
`src/controllers/uploadInfo.controller.ts`).

The controller is embedded shallowly:

* A `RawRow` is the record produced by the CSV parser with `headers: true`:
  an association list from column name to raw text, in header order.
  JavaScript objects cannot carry duplicate keys, so rows of interest have
  pairwise distinct keys (stated as a hypothesis where a proof needs it).
* JavaScript numbers are modelled as `Option ℚ`, where `none` stands for
  `NaN`.  `parseIntJS` and `parseFloatJS` model the JavaScript built-ins
  `parseInt(s)` (radix 10) and `parseFloat(s)` restricted to decimal
  notation: leading ASCII whitespace is skipped, an optional sign is read,
  and the longest valid numeric prefix is consumed; hexadecimal input,
  exponent notation and `Infinity` are outside the fragment exercised by
  the importer and are not modelled.
* The graph store is a list of nodes and a list of edges; edges refer to
  node endpoints by position in the node list, which models the store's
  natural return order used by `MATCH ... LIMIT 1`.
* `session.run` on an interpolated query is modelled by a validity check
  on every identifier spliced into the query text (labels, relationship
  type, property keys): an invalid identifier makes the query text
  malformed, which the store reports as an error (a thrown exception in
  the controller).
-/

/-- A typed scalar value as transmitted to the store.  `num` covers both
JavaScript integers and floats (JavaScript has a single number type);
`nan` is the `NaN` produced by a failed numeric parse. -/
inductive Value where
  | num (q : ℚ)
  | nan
  | bool (b : Bool)
  | str (s : String)
deriving DecidableEq

/-- Store-level equality as used when matching `{ID: $param}` patterns:
numbers compare by value, `NaN` compares equal to nothing (not even
itself), and values of different kinds are unequal. -/
def valueEq : Value → Value → Bool
  | .num a, .num b => decide (a = b)
  | .bool a, .bool b => decide (a = b)
  | .str a, .str b => decide (a = b)
  | _, _ => false

/-- A row decoded from the CSV stream: column name to raw text, in header
order. -/
abbrev RawRow := List (String × String)

/-- A node in the store: a label and a property map (in insertion order). -/
structure Node where
  label : String
  props : List (String × Value)
deriving DecidableEq

/-- A directed edge in the store; `src` and `tgt` are positions in the
graph's node list. -/
structure Edge where
  src : Nat
  relType : String
  tgt : Nat
  props : List (String × Value)
deriving DecidableEq

/-- The graph store state. -/
structure Graph where
  nodes : List Node
  edges : List Edge
deriving DecidableEq

/-- JavaScript ASCII whitespace skipped by `parseInt` / `parseFloat`. -/
def jsWhitespace (c : Char) : Bool :=
  c = ' ' || c = '\t' || c = '\n' || c = '\r'

/-- Longest prefix of decimal digits, paired with the remaining input. -/
def takeDigits : List Char → List Char × List Char
  | [] => ([], [])
  | c :: cs =>
    if c.isDigit then
      let p := takeDigits cs
      (c :: p.1, p.2)
    else ([], c :: cs)

/-- Numeric value of a digit string (most significant digit first). -/
def digitsVal (ds : List Char) : Nat :=
  ds.foldl (fun acc c => 10 * acc + (c.toNat - 48)) 0

/-- Optional leading sign; returns whether the number is negated and the
remaining input. -/
def parseSign : List Char → Bool × List Char
  | '-' :: cs => (true, cs)
  | '+' :: cs => (false, cs)
  | cs => (false, cs)

/-- Model of JavaScript `parseInt(s)` with the default radix 10: skip
leading whitespace, read an optional sign, then the longest digit prefix;
`none` models the `NaN` returned when no digit is found. -/
def parseIntJS (s : String) : Option Int :=
  let cs := s.data.dropWhile jsWhitespace
  let sg := parseSign cs
  let ds := takeDigits sg.2
  if ds.1.isEmpty then none
  else some (if sg.1 then -(digitsVal ds.1 : Int) else (digitsVal ds.1 : Int))

/-- Model of JavaScript `parseFloat(s)` on decimal notation: skip leading
whitespace, read an optional sign, then the longest `digits[.digits]`
prefix; `none` models `NaN` (returned when no digit is found at all).
The value `intpart.fracpart` is the exact rational
`(intpart * 10 ^ k + fracpart) / 10 ^ k` where `k` is the number of
fractional digits. -/
def parseFloatJS (s : String) : Option ℚ :=
  let cs := s.data.dropWhile jsWhitespace
  let sg := parseSign cs
  let ds := takeDigits sg.2
  let fs : List Char :=
    match ds.2 with
    | '.' :: r2 => (takeDigits r2).1
    | _ => []
  if ds.1.isEmpty && fs.isEmpty then none
  else
    let n : Int := (digitsVal ds.1 * 10 ^ fs.length + digitsVal fs : ℕ)
    some (mkRat (if sg.1 then -n else n) (10 ^ fs.length))

/-- Injection of a JavaScript number (`Option ℚ`, `none` = `NaN`) into
`Value`. -/
def jsNumValue : Option ℚ → Value
  | some q => .num q
  | none => .nan

/-- Injection of a `parseInt` result into `Value`. -/
def intValue : Option Int → Value
  | some n => .num (n : ℚ)
  | none => .nan

/-- ASCII lower-casing, modelling JavaScript `toLowerCase()` on the ASCII
fragment relevant to the `"true"`/`"false"` comparison. -/
def toLowerStr (s : String) : String := ⟨s.data.map Char.toLower⟩

/-- The importer's dynamic type coercion for relationship property values
(`uploadInfo.controller.ts`, lines 113-120): if `parseFloat(value)` is not
`NaN` the parsed number is used; else a case-insensitive `true`/`false`
becomes a boolean; else the raw string is kept. -/
def coerceProp (value : String) : Value :=
  match parseFloatJS value with
  | some q => Value.num q
  | none =>
    if toLowerStr value = "true" then Value.bool true
    else if toLowerStr value = "false" then Value.bool false
    else Value.str value

/-- Field access on a row (`record[key]`); `none` models `undefined`. -/
def getField : RawRow → String → Option String
  | [], _ => none
  | kv :: t, k => if kv.1 == k then some kv.2 else getField t k

/-- Field access with JavaScript string coercion of `undefined` (a missing
column interpolates as the string `"undefined"`). -/
def rowField (r : RawRow) (k : String) : String :=
  (getField r k).getD "undefined"

/-- Property lookup in a stored property map (first binding wins). -/
def lookupProp : List (String × Value) → String → Option Value
  | [], _ => none
  | kv :: t, k => if kv.1 == k then some kv.2 else lookupProp t k

/-- Whether a string is a valid unquoted identifier when interpolated into
query text (letters, digits, underscore, not starting with a digit); an
invalid identifier makes the interpolated query malformed, so the store
rejects it. -/
def validIdent (s : String) : Bool :=
  match s.data with
  | [] => false
  | c :: cs => (c.isAlpha || c = '_') && cs.all (fun d => d.isAlphanum || d = '_')

/-- Whether a stored node matches a `MATCH (n:label {ID: $idVal})` lookup. -/
def nodeMatches (n : Node) (label : String) (idVal : Value) : Bool :=
  decide (n.label = label) &&
    (match lookupProp n.props "ID" with
     | some v => valueEq v idVal
     | none => false)

/-- Positions (in store order) of the nodes matching a label/ID lookup;
the auxiliary function carries the position of the head of the remaining
list. -/
def matchingIdxsAux (label : String) (idVal : Value) : List Node → Nat → List Nat
  | [], _ => []
  | n :: t, i =>
    if nodeMatches n label idVal then i :: matchingIdxsAux label idVal t (i + 1)
    else matchingIdxsAux label idVal t (i + 1)

/-- Positions of the nodes of `g` matching a label/ID lookup, in store
order (the `LIMIT 1` lookups take the head of this list). -/
def matchingIdxs (g : Graph) (label : String) (idVal : Value) : List Nat :=
  matchingIdxsAux label idVal g.nodes 0

/-- Reserved relationship columns (`excludedKeys` in the source). -/
def excludedKeys : List String :=
  ["Start_Node_Type", "Start_ID", "End_Node_Type", "End_ID", "Relation"]

/-- The coerced edge-property parameters of a relationship row: every
non-reserved column, coerced by `coerceProp`, in column order. -/
def relProps (r : RawRow) : List (String × Value) :=
  (r.filter (fun kv => !excludedKeys.contains kv.1)).map
    (fun kv => (kv.1, coerceProp kv.2))

/-- `parseFloat(record.Start_ID)` as a store value (`NaN` when the column
is missing or not numeric). -/
def startKey (r : RawRow) : Value :=
  jsNumValue ((getField r "Start_ID").bind parseFloatJS)

/-- `parseFloat(record.End_ID)` as a store value. -/
def endKey (r : RawRow) : Value :=
  jsNumValue ((getField r "End_ID").bind parseFloatJS)

/-- Result of the start-endpoint lookup for a relationship row. -/
def startIdxs (g : Graph) (r : RawRow) : List Nat :=
  matchingIdxs g (rowField r "Start_Node_Type") (startKey r)

/-- Result of the end-endpoint lookup for a relationship row. -/
def endIdxs (g : Graph) (r : RawRow) : List Nat :=
  matchingIdxs g (rowField r "End_Node_Type") (endKey r)

/-- Whether the two endpoint lookup queries are well formed (their
interpolated labels are valid identifiers). -/
def endpointTypesValid (r : RawRow) : Bool :=
  validIdent (rowField r "Start_Node_Type") && validIdent (rowField r "End_Node_Type")

/-- Whether the interpolated `MERGE` query of a relationship row is well
formed (valid relationship type and property keys). -/
def mergeQueryValid (r : RawRow) : Bool :=
  validIdent (rowField r "Relation") && (relProps r).all (fun kv => validIdent kv.1)

/-- Whether a pattern property map matches a stored property map: every
listed key must be present with a store-equal value (extra stored
properties are allowed, as in `MATCH`/`MERGE` pattern maps). -/
def patternPropsMatch (stored pat : List (String × Value)) : Bool :=
  pat.all (fun kv =>
    match lookupProp stored kv.1 with
    | some v => valueEq v kv.2
    | none => false)

/-- Whether a stored edge is matched by the `MERGE`
`(start)-[r:ty {props}]->(end)` pattern for a given endpoint pair. -/
def edgeMatchesPattern (e : Edge) (si ei : Nat) (ty : String)
    (ps : List (String × Value)) : Bool :=
  decide (e.src = si) && decide (e.tgt = ei) && decide (e.relType = ty) &&
    patternPropsMatch e.props ps

/-- Whether some stored edge already satisfies the `MERGE` pattern for the
endpoint pair `p`. -/
def hasMatch (g : Graph) (ty : String) (ps : List (String × Value))
    (p : Nat × Nat) : Bool :=
  g.edges.any (fun e => edgeMatchesPattern e p.1 p.2 ty ps)

/-- One `MERGE` row action: if an edge matching the pattern already exists
between the pair, nothing happens; otherwise an edge with exactly the
pattern properties is appended. -/
def mergeStep (ty : String) (ps : List (String × Value)) (g : Graph)
    (p : Nat × Nat) : Graph :=
  if hasMatch g ty ps p then g
  else ⟨g.nodes, g.edges ++ [⟨p.1, ty, p.2, ps⟩]⟩

/-- The endpoint pairs produced by the unrestricted `MATCH start / MATCH
end` clauses of the `MERGE` query: every matching start node paired with
every matching end node, in store order. -/
def relPairs (ss es : List Nat) : List (Nat × Nat) :=
  ss.foldr (fun si acc => es.map (fun ei => (si, ei)) ++ acc) []

/-- Outcome of processing one relationship row. -/
inductive RowStep where
  | merged (g : Graph)
  | skipRow
  | threw
deriving DecidableEq

/-- Processing of one relationship row (`importRelationship` loop body):
run the two endpoint lookups (throwing if an interpolated label is
malformed), skip the row if either lookup is empty, then run the `MERGE`
query (throwing if its interpolated identifiers are malformed). -/
def relRowStep (g : Graph) (r : RawRow) : RowStep :=
  if endpointTypesValid r then
    if (startIdxs g r).isEmpty || (endIdxs g r).isEmpty then .skipRow
    else if mergeQueryValid r then
      .merged ((relPairs (startIdxs g r) (endIdxs g r)).foldl
        (mergeStep (rowField r "Relation") (relProps r)) g)
    else .threw
  else .threw

/-- Outcome of `importRelationship` over a record list: the final graph,
the number of rows skipped for unresolved endpoints (the logged
`continue` branch), and whether an exception escaped to the caller. -/
structure RelOutcome where
  graph : Graph
  skipped : Nat
  threw : Bool
deriving DecidableEq

/-- `UploadInfoController.importRelationship`: rows are processed strictly
in order; a skipped row continues with the next row; a thrown store error
aborts the remaining rows and propagates. -/
def importRelationship (g : Graph) : List RawRow → RelOutcome
  | [] => ⟨g, 0, false⟩
  | r :: rs =>
    match relRowStep g r with
    | .merged g2 => importRelationship g2 rs
    | .skipRow =>
      let o := importRelationship g rs
      ⟨o.graph, o.skipped + 1, o.threw⟩
    | .threw => ⟨g, 0, true⟩

/-- The non-reserved columns of a node row (the `...properties` rest of
the destructuring). -/
def nodeProps (r : RawRow) : RawRow :=
  r.filter (fun kv => !(kv.1 == "ID") && !(kv.1 == "Type"))

/-- Whether the interpolated `CREATE` query of a node row is well formed:
the label and every property key must be valid identifiers, and because
the query template hardcodes a comma after `ID: $ID`, a row with no
non-reserved column produces malformed query text as well. -/
def nodeQueryValid (r : RawRow) : Bool :=
  validIdent (rowField r "Type") && !(nodeProps r).isEmpty &&
    (nodeProps r).all (fun kv => validIdent kv.1)

/-- The node created from a node row: label from the `Type` column, `ID`
coerced with `parseInt`, and every other column passed through as its raw
string. -/
def nodeOfRow (r : RawRow) : Node :=
  { label := rowField r "Type"
    props := ("ID", intValue (parseIntJS (rowField r "ID")))
      :: (nodeProps r).map (fun kv => (kv.1, Value.str kv.2)) }

/-- Append a freshly created node to the store. -/
def addNode (g : Graph) (n : Node) : Graph :=
  ⟨g.nodes ++ [n], g.edges⟩

/-- `UploadInfoController.importNodes`: one unconditional `CREATE` per
row, no existence check; the loop body has no row-level catch, so the
first store error aborts the remaining rows and propagates (second
component `true`). -/
def importNodes (g : Graph) : List RawRow → Graph × Bool
  | [] => (g, false)
  | r :: rs =>
    if nodeQueryValid r then importNodes (addNode g (nodeOfRow r)) rs
    else (g, true)

/-- The success message built by the controller (emoji prefix elided):
it mentions only the number of parsed records and the file name. -/
def importMessage (n : Nat) (fileName : String) : String :=
  "Se importaron " ++ toString n ++ " registros desde " ++ fileName

/-- Whether `pat` occurs at the start of `l`. -/
def listStartsWith : List Char → List Char → Bool
  | _, [] => true
  | [], _ :: _ => false
  | c :: cs, d :: ds => c == d && listStartsWith cs ds

/-- Whether `pat` occurs as a contiguous run somewhere in `l`. -/
def listContainsSub (pat : List Char) : List Char → Bool
  | [] => listStartsWith [] pat
  | c :: t => listStartsWith (c :: t) pat || listContainsSub pat t

/-- The routing test `fileName.includes("relations")`. -/
def isRelationsFile (fileName : String) : Bool :=
  listContainsSub "relations".data fileName.data

/-- An HTTP response as produced by the upload endpoint. -/
structure HttpResponse where
  status : Nat
  body : String
deriving DecidableEq

/-- Observable outcome of one ingestion request: the response sent, whether
the store session was closed before the handler finished, and the final
graph state. -/
structure UploadResult where
  response : HttpResponse
  sessionClosed : Bool
  graph : Graph
deriving DecidableEq

/-- `UploadInfoController.uploadCSV` after the file-presence check, as a
function of the CSV decoding outcome (`Except.error` models the stream's
`error` event for a malformed file): on a stream error the error handler
sends a 500 without touching the session; on the `end` event the batch
runs under a try/catch whose `finally` closes the session, sending 200
with the record-count message on success and 500 if processing threw. -/
def uploadCSV (fileName : String) (parsed : Except Unit (List RawRow))
    (g : Graph) : UploadResult :=
  match parsed with
  | .error _ => ⟨⟨500, "Error al leer el archivo CSV"⟩, false, g⟩
  | .ok records =>
    if isRelationsFile fileName then
      let o := importRelationship g records
      if o.threw then ⟨⟨500, "Error al procesar el archivo CSV"⟩, true, o.graph⟩
      else ⟨⟨200, importMessage records.length fileName⟩, true, o.graph⟩
    else
      let p := importNodes g records
      if p.2 then ⟨⟨500, "Error al procesar el archivo CSV"⟩, true, p.1⟩
      else ⟨⟨200, importMessage records.length fileName⟩, true, p.1⟩

/-- Number of stored edges with the given source position, relationship
type and target position. -/
def edgeCountTriple (g : Graph) (si : Nat) (ty : String) (ti : Nat) : Nat :=
  (g.edges.filter (fun e =>
    decide (e.src = si) && decide (e.relType = ty) && decide (e.tgt = ti))).length

/-- The empty graph store. -/
def gEmpty : Graph := ⟨[], []⟩

/-- Concrete relationship row: `Invoice 1 -CONTAINS-> Product 7` with one
edge property `Quantity = 3`. -/
def relRowW : RawRow :=
  [("Start_Node_Type", "Invoice"), ("Start_ID", "1"), ("End_Node_Type", "Product"),
   ("End_ID", "7"), ("Relation", "CONTAINS"), ("Quantity", "3")]

/-- Concrete store holding `Invoice {ID: 1}` and `Product {ID: 7}`. -/
def gInv : Graph :=
  ⟨[⟨"Invoice", [("ID", Value.num 1)]⟩, ⟨"Product", [("ID", Value.num 7)]⟩], []⟩

/-- A relationship row between two `Product` nodes with one `Weight`
property. -/
def relRow (a b w : String) : RawRow :=
  [("Start_Node_Type", "Product"), ("Start_ID", a), ("End_Node_Type", "Product"),
   ("End_ID", b), ("Relation", "LINKS"), ("Weight", w)]

/-- A `Product` node with the given numeric business key. -/
def prodNode (i : Nat) : Node := ⟨"Product", [("ID", Value.num (i : ℚ))]⟩

/-- Concrete store with ten `Product` nodes, keys 1 through 10. -/
def g10 : Graph :=
  ⟨[prodNode 1, prodNode 2, prodNode 3, prodNode 4, prodNode 5,
    prodNode 6, prodNode 7, prodNode 8, prodNode 9, prodNode 10], []⟩

/-- A ten-row relationship file: the first row references the nonexistent
key 99 (unresolvable), the other nine connect consecutive products. -/
def rows10 : List RawRow :=
  [relRow "99" "1" "w0",
   relRow "1" "2" "w1", relRow "2" "3" "w2", relRow "3" "4" "w3",
   relRow "4" "5" "w4", relRow "5" "6" "w5", relRow "6" "7" "w6",
   relRow "7" "8" "w7", relRow "8" "9" "w8", relRow "9" "10" "w9"]

/-- A node row with `ID`, `Type` and one `Name` property. -/
def nodeRow (i ty nm : String) : RawRow := [("ID", i), ("Type", ty), ("Name", nm)]

/-- First two (well-formed) rows of the ten-row node file of the row
independence scenario. -/
def c3pre : List RawRow := [nodeRow "1" "Product" "N1", nodeRow "2" "Product" "N2"]

/-- Row 3 of the scenario: its `Type` value `"Pro-duct"` is not a valid
identifier, so the interpolated `CREATE` query is malformed. -/
def c3bad : RawRow := nodeRow "3" "Pro-duct" "N3"

/-- Rows 4 through 10 of the scenario (all well formed). -/
def c3post : List RawRow :=
  [nodeRow "4" "Product" "N4", nodeRow "5" "Product" "N5", nodeRow "6" "Product" "N6",
   nodeRow "7" "Product" "N7", nodeRow "8" "Product" "N8", nodeRow "9" "Product" "N9",
   nodeRow "10" "Product" "N10"]

/-- The full ten-row node file with the malformed third row. -/
def c3rows : List RawRow := c3pre ++ c3bad :: c3post

/-- The end-to-end node row `7,Product,Widget,19.99` under header
`ID,Type,Name,Price`. -/
def c4row : RawRow :=
  [("ID", "7"), ("Type", "Product"), ("Name", "Widget"), ("Price", "19.99")]

/-- A simple node row used to exhibit duplicate creation on re-import. -/
def c7row : RawRow := [("ID", "1"), ("Type", "Product"), ("Name", "A")]

/-- A store already holding exactly the node that `c7row` creates. -/
def gDup : Graph := ⟨[nodeOfRow c7row], []⟩

/-- A node row whose `ID` text has a nonzero fractional part. -/
def c10row : RawRow := [("ID", "7.5"), ("Type", "Product"), ("Name", "X")]

/-- C6: for every input string the coercion lands in exactly one of the
code's branches — numeric prefix, boolean literal, or raw string — and the
resulting typed scalar is determined by the input; being a function of the
input, `coerceProp` is total and deterministic. -/
theorem coerce_total_deterministic (v : String) :
    (∃ q, parseFloatJS v = some q ∧ coerceProp v = Value.num q) ∨
    (parseFloatJS v = none ∧ toLowerStr v = "true" ∧ coerceProp v = Value.bool true) ∨
    (parseFloatJS v = none ∧ toLowerStr v ≠ "true" ∧ toLowerStr v = "false" ∧
      coerceProp v = Value.bool false) ∨
    (parseFloatJS v = none ∧ toLowerStr v ≠ "true" ∧ toLowerStr v ≠ "false" ∧
      coerceProp v = Value.str v) := by
  cases h : parseFloatJS v with
  | some q => exact Or.inl ⟨q, rfl, by simp [coerceProp, h]⟩
  | none =>
    by_cases h1 : toLowerStr v = "true"
    · exact Or.inr (Or.inl ⟨rfl, h1, by simp [coerceProp, h, h1]⟩)
    · by_cases h2 : toLowerStr v = "false"
      · exact Or.inr (Or.inr (Or.inl ⟨rfl, h1, h2, by simp [coerceProp, h, h1, h2]⟩))
      · exact Or.inr (Or.inr (Or.inr ⟨rfl, h1, h2, by simp [coerceProp, h, h1, h2]⟩))

/-- C5 counterexample: the claimed full-parse precedence fails — the
partially numeric value `"42abc"` is coerced to the number 42 by the
prefix-parsing `parseFloat` branch, not kept as the string `"42abc"`. -/
theorem coerce_claimed_precedence_cex :
    coerceProp "42abc" = Value.num 42 ∧ Value.num 42 ≠ Value.str "42abc" := by
  decide

/-- C5 amended: the coercion has no separate integer branch and uses
prefix-parse (not full-parse) semantics — any value whose `parseFloat`
prefix parse succeeds becomes that number (so `"42abc"` becomes 42); else
a case-insensitive `true`/`false` becomes a boolean; else the value stays
a string; the empty string stays the string `""`. -/
theorem coerce_prefix_parse_semantics :
    (∀ v q, parseFloatJS v = some q → coerceProp v = Value.num q) ∧
    (∀ v, parseFloatJS v = none → toLowerStr v = "true" → coerceProp v = Value.bool true) ∧
    (∀ v, parseFloatJS v = none → toLowerStr v ≠ "true" → toLowerStr v = "false" →
      coerceProp v = Value.bool false) ∧
    (∀ v, parseFloatJS v = none → toLowerStr v ≠ "true" → toLowerStr v ≠ "false" →
      coerceProp v = Value.str v) ∧
    coerceProp "" = Value.str "" ∧ coerceProp "42abc" = Value.num 42 := by
  refine ⟨?_, ?_, ?_, ?_, by decide, by decide⟩
  · intro v q h; simp [coerceProp, h]
  · intro v h h1; simp [coerceProp, h, h1]
  · intro v h h1 h2; simp [coerceProp, h, h1, h2]
  · intro v h h1 h2; simp [coerceProp, h, h1, h2]

/-- C5 amended, witness: `"3.5"` is coerced through the numeric branch. -/
theorem coerce_prefix_parse_semantics_witness :
    coerceProp "3.5" = Value.num (mkRat 7 2) :=
  coerce_prefix_parse_semantics.1 "3.5" (mkRat 7 2) (by decide)

/-- C4 counterexample: importing `7,Product,Widget,19.99` stores the
`Price` column as the raw string `"19.99"`, not as the coerced float
19.99 — the node importer performs no type coercion on non-reserved
columns. -/
theorem node_import_raw_strings_cex :
    (importNodes gEmpty [c4row]).1.nodes =
      [⟨"Product", [("ID", Value.num 7), ("Name", Value.str "Widget"),
        ("Price", Value.str "19.99")]⟩] ∧
    Value.str "19.99" ≠ Value.num (1999 / 100) := by
  constructor
  · decide
  · decide

/-- C4 amended: the row creates exactly one `Product` node, with `ID`
parsed to the number 7 by `parseInt` but `Name` and `Price` passed through
as the raw strings `"Widget"` and `"19.99"`; no error is reported. -/
theorem node_import_c4_actual :
    importNodes gEmpty [c4row] =
      (⟨[⟨"Product", [("ID", Value.num 7), ("Name", Value.str "Widget"),
        ("Price", Value.str "19.99")]⟩], []⟩, false) := by
  decide

/-- C9: on the CSV stream decode-error path the handler answers 500 but
never closes the store session — the `finally` that closes the session
only guards the `end`-event handler, so the session leaks on malformed
input, contrary to the guaranteed-release discipline. -/
theorem session_left_open_on_malformed_csv :
    (uploadCSV "data.csv" (.error ()) gEmpty).sessionClosed = false ∧
    (uploadCSV "data.csv" (.error ()) gEmpty).response.status = 500 := by
  constructor
  · rfl
  · rfl

/-- C3 amended: a store failure on one node row is not caught at the row
level — it aborts the batch: the rows before the failing row have been
created, the failing row and every later row are not processed, and the
error propagates to the request handler. -/
theorem node_row_failure_aborts_batch (pre : List RawRow) (g : Graph)
    (post : List RawRow) (bad : RawRow)
    (hpre : ∀ x ∈ pre, nodeQueryValid x = true)
    (hbad : nodeQueryValid bad = false) :
    (importNodes g (pre ++ bad :: post)).1.nodes.length = g.nodes.length + pre.length ∧
    (importNodes g (pre ++ bad :: post)).2 = true := by
  induction pre generalizing g with
  | nil => simp [importNodes, hbad]
  | cons x t ih =>
    have hx : nodeQueryValid x = true := hpre x (List.mem_cons_self x t)
    have h2 := ih (addNode g (nodeOfRow x)) (fun y hy => hpre y (List.mem_cons_of_mem x hy))
    rw [List.cons_append]
    constructor
    · show (importNodes g (x :: (t ++ bad :: post))).1.nodes.length = _
      simp only [importNodes, hx, if_true]
      rw [h2.1]
      simp [addNode]
      omega
    · show (importNodes g (x :: (t ++ bad :: post))).2 = true
      simp only [importNodes, hx, if_true]
      exact h2.2

/-- C3 amended, witness: in the concrete ten-row file the two rows before
the malformed row are created and the batch aborts. -/
theorem node_row_failure_aborts_batch_witness :
    (importNodes gEmpty (c3pre ++ c3bad :: c3post)).1.nodes.length =
      gEmpty.nodes.length + c3pre.length ∧
    (importNodes gEmpty (c3pre ++ c3bad :: c3post)).2 = true :=
  node_row_failure_aborts_batch c3pre gEmpty c3post c3bad (by decide) (by decide)

/-- C3 counterexample: in the ten-row node file whose third row has the
malformed label `"Pro-duct"`, only the 2 rows before it are created (not
the claimed 9), the error escapes the batch, and the request answers 500
instead of recording a row-level failure and continuing. -/
theorem node_row_failure_aborts_batch_cex :
    (importNodes gEmpty c3rows).1.nodes.length = 2 ∧
    (importNodes gEmpty c3rows).2 = true ∧
    (uploadCSV "nodes.csv" (.ok c3rows) gEmpty).response.status = 500 := by
  refine ⟨by decide, by decide, by decide⟩

/-- C7: every valid node row is realized by an unconditional `CREATE` with
no prior existence check — the new node is appended to the store whatever
nodes (in particular an identical one) already exist, and re-running the
same row appends yet another copy. -/
theorem node_import_always_creates (g : Graph) (r : RawRow)
    (hv : nodeQueryValid r = true) :
    (importNodes g [r]).1.nodes = g.nodes ++ [nodeOfRow r] ∧
    (importNodes (importNodes g [r]).1 [r]).1.nodes =
      g.nodes ++ [nodeOfRow r] ++ [nodeOfRow r] := by
  have h1 : importNodes g [r] = (addNode g (nodeOfRow r), false) := by
    simp [importNodes, hv]
  constructor
  · rw [h1]
    rfl
  · rw [h1]
    show (importNodes (addNode g (nodeOfRow r)) [r]).1.nodes = _
    simp [importNodes, hv, addNode]

/-- C7 witness: importing `c7row` into a store that already holds exactly
the node it creates still appends a duplicate, and a re-import appends a
third copy. -/
theorem node_import_always_creates_witness :
    (importNodes gDup [c7row]).1.nodes = gDup.nodes ++ [nodeOfRow c7row] ∧
    (importNodes (importNodes gDup [c7row]).1 [c7row]).1.nodes =
      gDup.nodes ++ [nodeOfRow c7row] ++ [nodeOfRow c7row] :=
  node_import_always_creates gDup c7row (by decide)

/-- C8 counterexample: two runs of the same one-row relationship file, one
against a store where the edge is realized (1 edge created) and one
against an empty store where the row is skipped (0 edges created), send
byte-for-byte identical responses — the response therefore does not
report how many rows were successfully realized. -/
theorem response_hides_realized_count_cex :
    (uploadCSV "relations.csv" (.ok [relRowW]) gInv).response =
      (uploadCSV "relations.csv" (.ok [relRowW]) gEmpty).response ∧
    (uploadCSV "relations.csv" (.ok [relRowW]) gInv).graph.edges.length = 1 ∧
    (uploadCSV "relations.csv" (.ok [relRowW]) gEmpty).graph.edges.length = 0 := by
  refine ⟨by decide, by decide, by decide⟩

/-- C8 amended: a normally completing ingestion reports only the number of
rows read (`records.length`, labelled as imported) together with the file
name; the number of successfully realized rows is not part of the
response. -/
theorem response_reports_only_rows_read (fileName : String)
    (records : List RawRow) (g : Graph)
    (h : (uploadCSV fileName (.ok records) g).response.status = 200) :
    (uploadCSV fileName (.ok records) g).response.body =
      importMessage records.length fileName := by
  by_cases hrel : isRelationsFile fileName = true
  · cases ht : (importRelationship g records).threw
    · simp [uploadCSV, hrel, ht]
    · simp [uploadCSV, hrel, ht] at h
  · cases ht : (importNodes g records).2
    · simp [uploadCSV, hrel, ht]
    · simp [uploadCSV, hrel, ht] at h

/-- C8 amended, witness: a one-row node file that imports cleanly answers
with the record-count message. -/
theorem response_reports_only_rows_read_witness :
    (uploadCSV "x.csv" (.ok [c4row]) gEmpty).response.body =
      importMessage [c4row].length "x.csv" :=
  response_reports_only_rows_read "x.csv" [c4row] gEmpty (by decide)

/-- Every position returned by the lookup corresponds to a stored node
that matches the label/ID pattern. -/
theorem mem_matchingIdxsAux (L : String) (v : Value) :
    ∀ (l : List Node) (b i : Nat), i ∈ matchingIdxsAux L v l b →
      ∃ j n, i = b + j ∧ l[j]? = some n ∧ nodeMatches n L v = true := by
  intro l
  induction l with
  | nil =>
    intro b i h
    simp [matchingIdxsAux] at h
  | cons n t ih =>
    intro b i h
    cases hm : nodeMatches n L v with
    | true =>
      rw [matchingIdxsAux, if_pos hm] at h
      rcases List.mem_cons.mp h with rfl | h2
      · exact ⟨0, n, by omega, by simp, hm⟩
      · obtain ⟨j, n2, hij, hjn, hm2⟩ := ih (b + 1) i h2
        exact ⟨j + 1, n2, by omega, by simpa using hjn, hm2⟩
    | false =>
      rw [matchingIdxsAux, if_neg (by simp [hm])] at h
      obtain ⟨j, n2, hij, hjn, hm2⟩ := ih (b + 1) i h
      exact ⟨j + 1, n2, by omega, by simpa using hjn, hm2⟩

/-- C10: the node importer stores the `ID` column through `parseInt`
(truncating, `NaN` on a non-numeric value) while the relationship
resolver keys its endpoint lookups on `parseFloat` of the same text; for
an `ID` text with a nonzero fractional part the stored value can never
equal the lookup key, so a node created from such a row is never resolved
as an endpoint, under any label and in any store. -/
theorem fractional_id_never_resolves (r : RawRow) (s : String) (q : ℚ)
    (L : String) (hid : getField r "ID" = some s)
    (hq : parseFloatJS s = some q) (hden : q.den ≠ 1) :
    nodeMatches (nodeOfRow r) L (jsNumValue (parseFloatJS s)) = false ∧
    ∀ (g : Graph) (i : Nat), g.nodes[i]? = some (nodeOfRow r) →
      i ∉ matchingIdxs g L (jsNumValue (parseFloatJS s)) := by
  have hids : rowField r "ID" = s := by simp [rowField, hid]
  have hlk : lookupProp (nodeOfRow r).props "ID" =
      some (intValue (parseIntJS s)) := by
    simp [nodeOfRow, lookupProp, hids]
  have hval : valueEq (intValue (parseIntJS s)) (Value.num q) = false := by
    cases hpi : parseIntJS s with
    | none => rfl
    | some m =>
      show valueEq (Value.num (m : ℚ)) (Value.num q) = false
      simp only [valueEq]
      exact decide_eq_false (fun hEq => hden (hEq ▸ Rat.den_intCast m))
  have hmain : nodeMatches (nodeOfRow r) L (jsNumValue (parseFloatJS s)) = false := by
    rw [hq]
    show nodeMatches (nodeOfRow r) L (Value.num q) = false
    rw [nodeMatches, hlk]
    show (decide ((nodeOfRow r).label = L) &&
      valueEq (intValue (parseIntJS s)) (Value.num q)) = false
    rw [hval]
    exact Bool.and_false _
  refine ⟨hmain, ?_⟩
  intro g i hgi hmem
  rw [matchingIdxs] at hmem
  obtain ⟨j, n, hij, hjn, hm⟩ :=
    mem_matchingIdxsAux L (jsNumValue (parseFloatJS s)) g.nodes 0 i hmem
  have hj : j = i := by omega
  rw [hj, hgi] at hjn
  have hn : n = nodeOfRow r := (Option.some_inj.mp hjn).symm
  rw [hn, hmain] at hm
  exact Bool.false_ne_true hm

/-- C10 witness: the node created from `ID = "7.5"` (stored `ID` is the
integer 7) is never matched by a lookup keyed on `parseFloat("7.5")`
(which is 7.5). -/
theorem fractional_id_never_resolves_witness :
    nodeMatches (nodeOfRow c10row) "Product" (jsNumValue (parseFloatJS "7.5")) = false :=
  (fractional_id_never_resolves c10row "7.5" (mkRat 15 2) "Product"
    (by decide) (by decide) (by decide)).1

/-- C2: a relationship row whose endpoint lookup comes back empty (for
either endpoint) creates no edge, raises nothing to the caller, and only
increments the skip count before processing continues with the remaining
rows; concretely, the ten-row file with one unresolvable row and nine
resolvable rows yields exactly nine realized edges and one skipped row,
with the batch returning normally. -/
theorem endpoint_not_found_skips_row :
    (∀ (g : Graph) (r : RawRow) (rs : List RawRow),
        endpointTypesValid r = true →
        ((startIdxs g r).isEmpty || (endIdxs g r).isEmpty) = true →
        importRelationship g (r :: rs) =
          ⟨(importRelationship g rs).graph, (importRelationship g rs).skipped + 1,
            (importRelationship g rs).threw⟩) ∧
    (importRelationship g10 rows10).graph.edges.length = g10.edges.length + 9 ∧
    (importRelationship g10 rows10).skipped = 1 ∧
    (importRelationship g10 rows10).threw = false := by
  refine ⟨?_, by decide, by decide, by decide⟩
  intro g r rs hE hemp
  have hstep : relRowStep g r = .skipRow := by
    simp [relRowStep, hE, hemp]
  simp [importRelationship, hstep]

/-- C2 witness: against the empty store the lookup for a well-typed row is
empty, so the row is skipped and the outcome is the one-row-skipped
variant of the empty outcome. -/
theorem endpoint_not_found_skips_row_witness :
    importRelationship gEmpty [relRow "1" "2" "x"] =
      ⟨(importRelationship gEmpty []).graph, (importRelationship gEmpty []).skipped + 1,
        (importRelationship gEmpty []).threw⟩ :=
  endpoint_not_found_skips_row.1 gEmpty (relRow "1" "2" "x") [] (by decide) (by decide)

/-- Coerced values compare equal to themselves under store equality (the
coercion never produces `NaN`). -/
theorem valueEq_coerce_self (v : String) :
    valueEq (coerceProp v) (coerceProp v) = true := by
  unfold coerceProp
  cases h : parseFloatJS v with
  | some q => simp [valueEq]
  | none =>
    by_cases h1 : toLowerStr v = "true"
    · simp [h1, valueEq]
    · by_cases h2 : toLowerStr v = "false"
      · simp [h1, h2, valueEq]
      · simp [h1, h2, valueEq]

/-- In a property map with pairwise distinct keys, looking up a binding's
key returns that binding's value. -/
theorem lookupProp_self :
    ∀ (ps : List (String × Value)), (ps.map Prod.fst).Nodup →
      ∀ kv ∈ ps, lookupProp ps kv.1 = some kv.2 := by
  intro ps
  induction ps with
  | nil =>
    intro _ kv h
    exact absurd h (List.not_mem_nil kv)
  | cons a t ih =>
    intro hnd kv hkv
    rw [List.map_cons, List.nodup_cons] at hnd
    rcases List.mem_cons.mp hkv with rfl | ht
    · simp [lookupProp]
    · have hmem : kv.1 ∈ t.map Prod.fst := List.mem_map.mpr ⟨kv, ht, rfl⟩
      have hne : (a.1 == kv.1) = false := by
        rw [beq_eq_false_iff_ne]
        intro he
        rw [← he] at hmem
        exact hnd.1 hmem
      simp only [lookupProp, hne]
      exact ih hnd.2 kv ht

/-- The property keys built for the `MERGE` query of a row with pairwise
distinct column names are themselves pairwise distinct. -/
theorem relProps_keys_nodup (r : RawRow) (hnd : (r.map Prod.fst).Nodup) :
    ((relProps r).map Prod.fst).Nodup := by
  have h1 : (relProps r).map Prod.fst =
      (r.filter (fun kv => !excludedKeys.contains kv.1)).map Prod.fst := by
    unfold relProps
    rw [List.map_map]
    rfl
  rw [h1]
  exact List.Nodup.sublist (List.Sublist.map Prod.fst (List.filter_sublist r)) hnd

/-- The coerced property map of a duplicate-free row matches itself as a
`MERGE` pattern. -/
theorem relProps_selfMatch (r : RawRow) (hnd : (r.map Prod.fst).Nodup) :
    patternPropsMatch (relProps r) (relProps r) = true := by
  rw [patternPropsMatch, List.all_eq_true]
  intro kv hkv
  obtain ⟨a, ha, rfl⟩ := List.mem_map.mp hkv
  rw [lookupProp_self (relProps r) (relProps_keys_nodup r hnd) _ hkv]
  exact valueEq_coerce_self a.2

/-- A `MERGE` action never changes the node list. -/
theorem mergeStep_nodes (ty : String) (ps : List (String × Value))
    (g : Graph) (p : Nat × Nat) : (mergeStep ty ps g p).nodes = g.nodes := by
  unfold mergeStep
  split <;> rfl

/-- A sequence of `MERGE` actions never changes the node list. -/
theorem foldl_mergeStep_nodes (ty : String) (ps : List (String × Value)) :
    ∀ (pairs : List (Nat × Nat)) (g : Graph),
      (pairs.foldl (mergeStep ty ps) g).nodes = g.nodes := by
  intro pairs
  induction pairs with
  | nil => intro g; rfl
  | cons p t ih =>
    intro g
    rw [List.foldl_cons, ih, mergeStep_nodes]

/-- A `MERGE` action only adds edges, so an already matched pattern stays
matched. -/
theorem hasMatch_mergeStep_mono (ty : String) (ps : List (String × Value))
    (g : Graph) (p q2 : Nat × Nat) (h : hasMatch g ty ps p = true) :
    hasMatch (mergeStep ty ps g q2) ty ps p = true := by
  unfold mergeStep
  split
  · exact h
  · simp only [hasMatch] at h ⊢
    simp [List.any_append, h]

/-- After a `MERGE` action for the pair `p`, the pattern is matched for
`p` (the freshly created edge matches its own pattern, given that the
pattern matches itself). -/
theorem hasMatch_mergeStep_self (ty : String) (ps : List (String × Value))
    (g : Graph) (p : Nat × Nat) (hps : patternPropsMatch ps ps = true) :
    hasMatch (mergeStep ty ps g p) ty ps p = true := by
  unfold mergeStep
  split
  · next h => exact h
  · simp [hasMatch, List.any_append, edgeMatchesPattern, hps]

/-- Matched patterns stay matched across a sequence of `MERGE` actions. -/
theorem hasMatch_foldl_mono (ty : String) (ps : List (String × Value)) :
    ∀ (pairs : List (Nat × Nat)) (g : Graph) (p : Nat × Nat),
      hasMatch g ty ps p = true →
      hasMatch (pairs.foldl (mergeStep ty ps) g) ty ps p = true := by
  intro pairs
  induction pairs with
  | nil => intro g p h; exact h
  | cons q t ih =>
    intro g p h
    rw [List.foldl_cons]
    exact ih _ p (hasMatch_mergeStep_mono ty ps g p q h)

/-- After running the `MERGE` over all endpoint pairs, every processed
pair has a matching edge. -/
theorem hasMatch_foldl_all (ty : String) (ps : List (String × Value))
    (hps : patternPropsMatch ps ps = true) :
    ∀ (pairs : List (Nat × Nat)) (g : Graph) (p : Nat × Nat), p ∈ pairs →
      hasMatch (pairs.foldl (mergeStep ty ps) g) ty ps p = true := by
  intro pairs
  induction pairs with
  | nil => intro g p h; exact absurd h (List.not_mem_nil p)
  | cons q t ih =>
    intro g p h
    rw [List.foldl_cons]
    rcases List.mem_cons.mp h with rfl | h2
    · exact hasMatch_foldl_mono ty ps t _ p (hasMatch_mergeStep_self ty ps g p hps)
    · exact ih _ p h2

/-- If every pair is already matched, the `MERGE` sequence is a no-op. -/
theorem foldl_mergeStep_noop (ty : String) (ps : List (String × Value)) :
    ∀ (pairs : List (Nat × Nat)) (g : Graph),
      (∀ p ∈ pairs, hasMatch g ty ps p = true) →
      pairs.foldl (mergeStep ty ps) g = g := by
  intro pairs
  induction pairs with
  | nil => intro g _; rfl
  | cons q t ih =>
    intro g h
    rw [List.foldl_cons]
    have hq : mergeStep ty ps g q = g := by
      unfold mergeStep
      rw [if_pos (h q (List.mem_cons_self q t))]
    rw [hq]
    exact ih g (fun p hp => h p (List.mem_cons_of_mem q hp))

/-- A realized relationship row never changes the node list. -/
theorem relRowStep_merged_nodes (g : Graph) (r : RawRow) (g2 : Graph)
    (h : relRowStep g r = .merged g2) : g2.nodes = g.nodes := by
  unfold relRowStep at h
  by_cases hE : endpointTypesValid r = true
  · rw [if_pos hE] at h
    by_cases hemp : ((startIdxs g r).isEmpty || (endIdxs g r).isEmpty) = true
    · rw [if_pos hemp] at h
      exact absurd h (by simp)
    · rw [if_neg hemp] at h
      by_cases hq : mergeQueryValid r = true
      · rw [if_pos hq] at h
        injection h with h2
        rw [← h2]
        exact foldl_mergeStep_nodes _ _ _ g
      · rw [if_neg hq] at h
        exact absurd h (by simp)
  · rw [if_neg hE] at h
    exact absurd h (by simp)

/-- Re-running a realized relationship row (with pairwise distinct column
names) on the resulting store realizes again with no change: the lookups
resolve identically and every `MERGE` pair is already matched. -/
theorem relRowStep_merged_again (g : Graph) (r : RawRow) (g2 : Graph)
    (hnd : (r.map Prod.fst).Nodup) (h : relRowStep g r = .merged g2) :
    relRowStep g2 r = .merged g2 := by
  have hn : g2.nodes = g.nodes := relRowStep_merged_nodes g r g2 h
  have hs : startIdxs g2 r = startIdxs g r := by
    unfold startIdxs matchingIdxs
    rw [hn]
  have he : endIdxs g2 r = endIdxs g r := by
    unfold endIdxs matchingIdxs
    rw [hn]
  unfold relRowStep at h ⊢
  by_cases hE : endpointTypesValid r = true
  · rw [if_pos hE] at h ⊢
    by_cases hemp : ((startIdxs g r).isEmpty || (endIdxs g r).isEmpty) = true
    · rw [if_pos hemp] at h
      exact absurd h (by simp)
    · rw [if_neg hemp] at h
      rw [hs, he, if_neg hemp]
      by_cases hq : mergeQueryValid r = true
      · rw [if_pos hq] at h ⊢
        injection h with h2
        have hps := relProps_selfMatch r hnd
        have hall : ∀ p ∈ relPairs (startIdxs g r) (endIdxs g r),
            hasMatch g2 (rowField r "Relation") (relProps r) p = true := by
          intro p hp
          rw [← h2]
          exact hasMatch_foldl_all _ _ hps _ g p hp
        rw [foldl_mergeStep_noop _ _ _ g2 hall]
      · rw [if_neg hq] at h
        exact absurd h (by simp)
  · rw [if_neg hE] at h
    exact absurd h (by simp)

/-- Re-running a one-row relationship file against the store it produced
leaves the store unchanged. -/
theorem importRelationship_single_reimport (g : Graph) (r : RawRow)
    (hnd : (r.map Prod.fst).Nodup) :
    (importRelationship (importRelationship g [r]).graph [r]).graph =
      (importRelationship g [r]).graph := by
  cases h : relRowStep g r with
  | merged g2 =>
    have h2 := relRowStep_merged_again g r g2 hnd h
    simp [importRelationship, h, h2]
  | skipRow => simp [importRelationship, h]
  | threw => simp [importRelationship, h]

/-- C1: re-running the same relationship row (same endpoint labels and
keys, same relation type, same property values — i.e. the same row)
against the store produced by its first run creates no second parallel
edge: for every (source, type, target) triple the edge count after the
second run equals the count after the first run. -/
theorem relationship_reimport_no_parallel_edge (g : Graph) (r : RawRow)
    (hnd : (r.map Prod.fst).Nodup) (si ti : Nat) (ty : String) :
    edgeCountTriple (importRelationship (importRelationship g [r]).graph [r]).graph
        si ty ti =
      edgeCountTriple (importRelationship g [r]).graph si ty ti := by
  rw [importRelationship_single_reimport g r hnd]

/-- C1 witness: re-running the concrete `Invoice 1 -CONTAINS-> Product 7`
row leaves the edge count of that triple unchanged. -/
theorem relationship_reimport_no_parallel_edge_witness :
    edgeCountTriple (importRelationship (importRelationship gInv [relRowW]).graph
        [relRowW]).graph 0 "CONTAINS" 1 =
      edgeCountTriple (importRelationship gInv [relRowW]).graph 0 "CONTAINS" 1 :=
  relationship_reimport_no_parallel_edge gInv relRowW (by decide) 0 1 "CONTAINS"
